import Mathlib

/-!
Shallow embedding of the element control core of a GStreamer binding
(`src/element.rs`).  The native engine is modelled as a structure of pure
result oracles (`Engine`): every native entry point the Rust code calls is a
field returning the value the engine would hand back.  Operations that the
Rust code performs against the engine (state transitions, seeks, pad links,
reference sinking) are additionally recorded in an `Action` trace so that
claims about which operations are or are not attempted can be stated.

Machine integers are modelled as `Int`/`Nat`; the f64 playback rate and the
f64 position fraction are modelled exactly over `ℚ` (the claims under
verification are about the structure of the computations, and the source
only compares rates with `0.0` and divides two integer casts).  Raw C
pointers that may be null are modelled as `Option Nat` where `none` is the
null pointer and `some h` a non-null handle (pointer identity is equality
of the `Nat`).  A Rust panic (from `Option::unwrap` on `None`) is modelled
as `Except.error`.
-/

namespace Gst

/-- States of the element lifecycle state machine (GstState). -/
inductive GstState
  | voidPending
  | null
  | ready
  | paused
  | playing
deriving DecidableEq, Inhabited

/-- Result of a state transition request (GstStateChangeReturn). -/
inductive GstStateChangeReturn
  | failure
  | success
  | async
  | noPreroll
deriving DecidableEq, Inhabited

/-- Query and seek formats (GstFormat). -/
inductive GstFormat
  | undefined
  | default
  | bytes
  | time
  | buffers
  | percent
deriving DecidableEq, Inhabited

/-- Seek boundary interpretation (GstSeekType); only SET is used here. -/
inductive GstSeekType
  | typeNone
  | set
  | typeEnd
deriving DecidableEq, Inhabited

/-- GST_SEEK_FLAG_FLUSH bit. -/
def GST_SEEK_FLAG_FLUSH : Nat := 1

/-- GST_SEEK_FLAG_ACCURATE bit. -/
def GST_SEEK_FLAG_ACCURATE : Nat := 2

/-- GST_SEEK_FLAG_SKIP bit. -/
def GST_SEEK_FLAG_SKIP : Nat := 16

/-- GST_CLOCK_TIME_NONE, the all-ones 64 bit clock value used as the
infinite blocking timeout. -/
def GST_CLOCK_TIME_NONE : Nat := 18446744073709551615

/-- Operations the control core performs against the native engine; traces
of these record what a call attempted. -/
inductive Action
  | setState (s : GstState)
  | seek (rate : ℚ) (format : GstFormat) (flags : Nat)
      (startType : GstSeekType) (start : Int)
      (stopType : GstSeekType) (stop : Int)
  | link (src dst : Nat)
  | unlink (src dst : Nat)
  | refSink
deriving DecidableEq

/-- The native engine as a pure oracle: each field returns the result the
corresponding native entry point would produce. -/
structure Engine where
  factoryMake : String → Option String → Option Nat
  setStateResult : GstState → GstStateChangeReturn
  getStateResult : Nat → GstState × GstState × GstStateChangeReturn
  queryPositionResult : GstFormat → Option Int
  queryDurationResult : GstFormat → Option Int
  seekResult : ℚ → GstFormat → Nat → GstSeekType → Int → GstSeekType → Int → Bool
  linkResult : Nat → Nat → Bool
  getStaticPad : String → Option Nat
  getBus : Option Nat

/-- Modelled from the spec: the generic ObjectWrapper (object.rs is not in
scope) holds one non-null native handle. -/
structure Object where
  handle : Nat
deriving DecidableEq, Inhabited

/-- An Element wraps exactly one Object (element.rs line 16). -/
structure Element where
  element : Object
deriving DecidableEq, Inhabited

/-- Modelled from the spec: a Pad handle wrapper (pad.rs is not in scope). -/
structure Pad where
  pad : Object
deriving DecidableEq, Inhabited

/-- Modelled from the spec: a Bus handle wrapper (bus.rs is not in scope). -/
structure Bus where
  bus : Object
deriving DecidableEq, Inhabited

/-- Modelled from the spec: a borrowed reference wrapper over an Element
(reference.rs is not in scope). -/
structure RefElement where
  element : Element
deriving DecidableEq, Inhabited

/-- Modelled from the spec: Object construction accepts a possibly-null
native pointer and yields no object on null, a wrapper otherwise. -/
def Object.new (p : Option Nat) : Option Object :=
  p.map (fun h => { handle := h })

/-- Modelled from the spec: Pad construction null-checks at the boundary. -/
def Pad.new (p : Option Nat) : Option Pad :=
  (Object.new p).map (fun o => { pad := o })

/-- Modelled from the spec: Bus construction null-checks at the boundary. -/
def Bus.new (p : Option Nat) : Option Bus :=
  (Object.new p).map (fun o => { bus := o })

/-- Element::new_from_gst_element (element.rs lines 46 to 49): wrap an
existing possibly-null pointer through Object construction. -/
def new_from_gst_element (p : Option Nat) : Option Element :=
  (Object.new p).map (fun obj => { element := obj })

/-- Element::new (element.rs lines 22 to 40): look up the factory, pass the
instance name only when nonempty, sink the floating reference on success
and wrap the handle; on a null factory result, log and return none.  The
trace records the reference-sink step. -/
def Element.new (eng : Engine) (factory_name element_name : String) :
    Option Element × List Action :=
  let name_ptr : Option String :=
    if element_name ≠ "" then some element_name else none
  match eng.factoryMake factory_name name_ptr with
  | some h => (some { element := (Object.new (some h)).get! }, [Action.refSink])
  | none => (none, [])

/-- Element::factory_make (element.rs lines 42 to 44), an alias of new. -/
def factory_make (eng : Engine) (element name : String) :
    Option Element × List Action :=
  Element.new eng element name

/-- Reference for Element (element.rs lines 426 to 430): a second wrapper
over the same handle. -/
def reference (e : Element) : Element :=
  { element := e.element }

/-- Element::link (element.rs lines 82 to 86): result of the native pairwise
link call. -/
def link (eng : Engine) (e1 e2 : Element) : Bool :=
  eng.linkResult e1.element.handle e2.element.handle

/-- The adjacent pairs of a list, as produced by slice windows of width 2. -/
def windows2 (l : List α) : List (α × α) :=
  l.zip l.tail

/-- Whether the engine links an adjacent pair. -/
def linkOk (eng : Engine) (p : Element × Element) : Bool :=
  eng.linkResult p.1.element.handle p.2.element.handle

/-- The trace entry for an attempted pairwise link. -/
def linkAction (p : Element × Element) : Action :=
  Action.link p.1.element.handle p.2.element.handle

/-- One fold step of link_many (element.rs lines 64 to 68): take fresh
references of the pair and, only when the accumulated result is still true,
attempt the link (the Rust `&&` short-circuits otherwise). -/
def linkManyStep (eng : Engine) (acc : Bool × List Action)
    (p : Element × Element) : Bool × List Action :=
  let e1 := reference p.1
  let e2 := reference p.2
  if acc.1 then
    (link eng e1 e2, acc.2 ++ [Action.link e1.element.handle e2.element.handle])
  else
    (false, acc.2)

/-- Element::link_many (element.rs lines 63 to 69): fold the link attempt
over all adjacent windows of width 2, starting from true. -/
def link_many (eng : Engine) (elements : List Element) : Bool × List Action :=
  (windows2 elements).foldl (linkManyStep eng) (true, [])

/-- Element::set_state (element.rs lines 129 to 133): request a state
transition and report the engine result code. -/
def set_state (eng : Engine) (state : GstState) : GstStateChangeReturn :=
  eng.setStateResult state

/-- Element::get_state (element.rs lines 162 to 169): current state, pending
state and result code, blocking up to the given timeout. -/
def get_state (eng : Engine) (timeout : Nat) :
    GstState × GstState × GstStateChangeReturn :=
  eng.getStateResult timeout

/-- Element::is_paused (element.rs lines 364 to 370). -/
def is_paused (eng : Engine) : Bool :=
  match get_state eng GST_CLOCK_TIME_NONE with
  | (GstState.paused, _, GstStateChangeReturn.success) => true
  | _ => false

/-- Element::is_playing (element.rs lines 373 to 379). -/
def is_playing (eng : Engine) : Bool :=
  match get_state eng GST_CLOCK_TIME_NONE with
  | (GstState.playing, _, GstStateChangeReturn.success) => true
  | _ => false

/-- Element::is_null_state (element.rs lines 382 to 388). -/
def is_null_state (eng : Engine) : Bool :=
  match get_state eng GST_CLOCK_TIME_NONE with
  | (GstState.null, _, GstStateChangeReturn.success) => true
  | _ => false

/-- Element::is_ready_state (element.rs lines 391 to 397). -/
def is_ready_state (eng : Engine) : Bool :=
  match get_state eng GST_CLOCK_TIME_NONE with
  | (GstState.ready, _, GstStateChangeReturn.success) => true
  | _ => false

/-- Element::query_duration (element.rs lines 219 to 228): absent when the
native query is not answerable. -/
def query_duration (eng : Engine) (format : GstFormat) : Option Int :=
  eng.queryDurationResult format

/-- Element::query_position (element.rs lines 236 to 245). -/
def query_position (eng : Engine) (format : GstFormat) : Option Int :=
  eng.queryPositionResult format

/-- Element::duration_ns (element.rs lines 248 to 250). -/
def duration_ns (eng : Engine) : Option Int :=
  query_duration eng GstFormat.time

/-- Element::position_ns (element.rs lines 263 to 265). -/
def position_ns (eng : Engine) : Option Int :=
  query_position eng GstFormat.time

/-- Element::position_pct (element.rs lines 269 to 277): the f64 quotient of
the two casts, modelled exactly over ℚ; absent unless both queries answer. -/
def position_pct (eng : Engine) : Option ℚ :=
  let pos := position_ns eng
  let dur := duration_ns eng
  if dur.isSome && pos.isSome then
    some ((pos.get! : ℚ) / (dur.get! : ℚ))
  else
    none

/-- Element::seek (element.rs lines 204 to 208): result of the native
segment-seek call. -/
def seek (eng : Engine) (rate : ℚ) (format : GstFormat) (flags : Nat)
    (start_type : GstSeekType) (start : Int)
    (stop_type : GstSeekType) (stop : Int) : Bool :=
  eng.seekResult rate format flags start_type start stop_type stop

/-- Element::set_speed (element.rs lines 312 to 341): rate 0 requests a
PAUSED transition; otherwise the current position is queried and, when
absent, the call returns false with no seek; a positive rate seeks from the
current position to stream end (stop = -1); a negative rate seeks from 0 to
the current position.  The trace records the operations attempted. -/
def set_speed (eng : Engine) (speed : ℚ) : Bool × List Action :=
  let format := GstFormat.time
  let flags := GST_SEEK_FLAG_SKIP ||| GST_SEEK_FLAG_ACCURATE ||| GST_SEEK_FLAG_FLUSH
  if speed = 0 then
    (decide (set_state eng GstState.paused ≠ GstStateChangeReturn.failure),
     [Action.setState GstState.paused])
  else
    match query_position eng GstFormat.time with
    | none => (false, [])
    | some pos =>
      if speed > 0 then
        (seek eng speed format flags GstSeekType.set pos GstSeekType.set (-1),
         [Action.seek speed format flags GstSeekType.set pos GstSeekType.set (-1)])
      else
        (seek eng speed format flags GstSeekType.set 0 GstSeekType.set pos,
         [Action.seek speed format flags GstSeekType.set 0 GstSeekType.set pos])

/-- Element::static_pad (element.rs lines 401 to 407): the possibly-null pad
pointer goes through the null-checking Pad constructor. -/
def static_pad (eng : Engine) (name : String) : Option Pad :=
  Pad.new (eng.getStaticPad name)

/-- Element::bus (element.rs lines 102 to 106): the possibly-null bus
pointer goes through the null-checking Bus constructor. -/
def bus (eng : Engine) : Option Bus :=
  Bus.new eng.getBus

/-- FromProperty for Ref Element (element.rs lines 500 to 506): the raw
property pointer is wrapped and then unwrapped unconditionally; the Rust
panic of `Option::unwrap` on a null pointer is modelled as `Except.error`. -/
def from_property (p : Option Nat) : Except String RefElement :=
  match new_from_gst_element p with
  | some e => Except.ok { element := e }
  | none => Except.error "called Option::unwrap on a None value"

/-- A concrete engine used to instantiate universally quantified theorems. -/
def testEngine : Engine where
  factoryMake := fun _ _ => some 1
  setStateResult := fun _ => GstStateChangeReturn.success
  getStateResult := fun _ =>
    (GstState.paused, GstState.voidPending, GstStateChangeReturn.success)
  queryPositionResult := fun _ => some 5
  queryDurationResult := fun _ => some 10
  seekResult := fun _ _ _ _ _ _ _ => true
  linkResult := fun _ _ => true
  getStaticPad := fun _ => some 2
  getBus := some 3

/-- A concrete engine whose position query is unanswerable. -/
def testEngineNoPos : Engine :=
  { testEngine with queryPositionResult := fun _ => none }

/-- Once the accumulated result is false, the fold of link_many attempts no
further link and leaves the trace unchanged. -/
theorem linkMany_foldl_false (eng : Engine) (pairs : List (Element × Element))
    (tr : List Action) :
    pairs.foldl (linkManyStep eng) (false, tr) = (false, tr) := by
  induction pairs generalizing tr with
  | nil => rfl
  | cons p ps ih => exact ih tr

/-- Closed form of the link_many fold from a true accumulator: the result is
the conjunction over all pairs, and the trace extends by the attempted links,
which are the pairs up to and including the first failing one. -/
theorem linkMany_foldl_true (eng : Engine) (pairs : List (Element × Element))
    (tr : List Action) :
    pairs.foldl (linkManyStep eng) (true, tr) =
      (pairs.all (linkOk eng),
       tr ++ (pairs.take ((pairs.takeWhile (linkOk eng)).length + 1)).map linkAction) := by
  induction pairs generalizing tr with
  | nil => simp
  | cons p ps ih =>
    cases h : linkOk eng p with
    | true =>
      have hstep : linkManyStep eng (true, tr) p = (true, tr ++ [linkAction p]) := by
        simp [linkManyStep, link, reference, linkAction, linkOk] at h ⊢
        exact h
      rw [List.foldl_cons, hstep, ih]
      simp [h, List.takeWhile_cons_of_pos, List.take_succ_cons]
    | false =>
      have hstep : linkManyStep eng (true, tr) p = (false, tr ++ [linkAction p]) := by
        simp [linkManyStep, link, reference, linkAction, linkOk] at h ⊢
        exact h
      rw [List.foldl_cons, hstep, linkMany_foldl_false]
      simp [h, List.takeWhile_cons_of_neg, List.take_succ_cons]

/-- C1: link_many attempts the adjacent pairs in order, stops at the first
failing pair (pairs after it are never attempted), performs no unlink or
rollback (the trace holds only the link attempts of that ordered prefix),
and returns true exactly when every adjacent pair links successfully. -/
theorem link_many_short_circuit_no_rollback (eng : Engine) (elements : List Element) :
    link_many eng elements =
      ((windows2 elements).all (linkOk eng),
       ((windows2 elements).take
          (((windows2 elements).takeWhile (linkOk eng)).length + 1)).map linkAction) := by
  simpa [link_many] using linkMany_foldl_true eng (windows2 elements) []

/-- C10: link_many on a slice with fewer than two elements returns true and
attempts no link operation at all. -/
theorem link_many_trivial_short (eng : Engine) (elements : List Element)
    (h : elements.length < 2) :
    link_many eng elements = (true, []) := by
  match elements with
  | [] => rfl
  | [e] => rfl
  | e1 :: e2 :: rest => simp [List.length_cons] at h; omega

/-- Witness for C10 at the empty slice. -/
theorem link_many_trivial_short_witness :
    ([] : List Element).length < 2 ∧ link_many testEngine [] = (true, []) :=
  ⟨by decide, link_many_trivial_short testEngine [] (by decide)⟩

/-- C2 (code defect): building an Element from a null raw property pointer
does not yield an absent value: the source unwraps the absent Option
unconditionally, which panics (modelled as the error outcome). -/
theorem from_property_null_panics :
    from_property none = Except.error "called Option::unwrap on a None value" :=
  rfl

/-- C3: each derived convenience state query holds exactly when get_state
with the infinite blocking timeout GST_CLOCK_TIME_NONE reports exactly the
corresponding state together with the SUCCESS result code. -/
theorem state_queries_via_get_state (eng : Engine) :
    (is_paused eng = true ↔
      ∃ pending, get_state eng GST_CLOCK_TIME_NONE =
        (GstState.paused, pending, GstStateChangeReturn.success))
    ∧ (is_playing eng = true ↔
      ∃ pending, get_state eng GST_CLOCK_TIME_NONE =
        (GstState.playing, pending, GstStateChangeReturn.success))
    ∧ (is_null_state eng = true ↔
      ∃ pending, get_state eng GST_CLOCK_TIME_NONE =
        (GstState.null, pending, GstStateChangeReturn.success))
    ∧ (is_ready_state eng = true ↔
      ∃ pending, get_state eng GST_CLOCK_TIME_NONE =
        (GstState.ready, pending, GstStateChangeReturn.success)) := by
  rcases ht : eng.getStateResult GST_CLOCK_TIME_NONE with ⟨st, pd, r⟩
  cases st <;> cases r <;>
    simp [is_paused, is_playing, is_null_state, is_ready_state, get_state, ht]

/-- C4: position_pct is exactly the quotient of position and duration when
both queries answer, and absent whenever either query is absent. -/
theorem position_pct_div_when_both_present (eng : Engine) :
    position_pct eng =
      (position_ns eng).bind (fun p =>
        (duration_ns eng).map (fun d => ((p : ℚ) / (d : ℚ))))
    ∧ ((position_pct eng).isSome ↔
        (position_ns eng).isSome ∧ (duration_ns eng).isSome) := by
  rcases hp : position_ns eng with _ | p <;>
    rcases hd : duration_ns eng with _ | d <;>
      simp [position_pct, hp, hd]

/-- C5: set_speed with rate 0 performs exactly one PAUSED state transition
request and no seek, and returns true exactly when that request does not
report FAILURE. -/
theorem set_speed_zero_pauses (eng : Engine) :
    (set_speed eng 0).snd = [Action.setState GstState.paused]
    ∧ ((set_speed eng 0).fst = true ↔
        set_state eng GstState.paused ≠ GstStateChangeReturn.failure) := by
  constructor
  · simp [set_speed]
  · simp [set_speed, set_state]

/-- C6: when the current position is answerable, a positive rate issues the
seek from the current position to stream end (stop bound -1) and a negative
rate issues the seek from stream start (0) to the current position, both
with the SKIP, ACCURATE and FLUSH flags in TIME format. -/
theorem set_speed_seek_directions (eng : Engine) (speed : ℚ) (pos : Int)
    (hpos : query_position eng GstFormat.time = some pos) :
    (speed > 0 →
      set_speed eng speed =
        (seek eng speed GstFormat.time
           (GST_SEEK_FLAG_SKIP ||| GST_SEEK_FLAG_ACCURATE ||| GST_SEEK_FLAG_FLUSH)
           GstSeekType.set pos GstSeekType.set (-1),
         [Action.seek speed GstFormat.time
           (GST_SEEK_FLAG_SKIP ||| GST_SEEK_FLAG_ACCURATE ||| GST_SEEK_FLAG_FLUSH)
           GstSeekType.set pos GstSeekType.set (-1)]))
    ∧ (speed < 0 →
      set_speed eng speed =
        (seek eng speed GstFormat.time
           (GST_SEEK_FLAG_SKIP ||| GST_SEEK_FLAG_ACCURATE ||| GST_SEEK_FLAG_FLUSH)
           GstSeekType.set 0 GstSeekType.set pos,
         [Action.seek speed GstFormat.time
           (GST_SEEK_FLAG_SKIP ||| GST_SEEK_FLAG_ACCURATE ||| GST_SEEK_FLAG_FLUSH)
           GstSeekType.set 0 GstSeekType.set pos])) := by
  constructor
  · intro hs
    simp [set_speed, hpos, hs, hs.ne.symm]
  · intro hs
    have h2 : ¬ speed > 0 := not_lt.mpr (le_of_lt hs)
    simp [set_speed, hpos, hs.ne, h2]

/-- Witness for C6 at a concrete engine with position 5, forward rate 2 and
reverse rate -2. -/
theorem set_speed_seek_directions_witness :
    query_position testEngine GstFormat.time = some 5
    ∧ (2 : ℚ) > 0 ∧ (-2 : ℚ) < 0
    ∧ set_speed testEngine 2 =
        (true, [Action.seek 2 GstFormat.time 19 GstSeekType.set 5 GstSeekType.set (-1)])
    ∧ set_speed testEngine (-2) =
        (true, [Action.seek (-2) GstFormat.time 19 GstSeekType.set 0 GstSeekType.set 5]) :=
  ⟨rfl, by norm_num, by norm_num,
   ((set_speed_seek_directions testEngine 2 5 rfl).1 (by norm_num)).trans (by rfl),
   ((set_speed_seek_directions testEngine (-2) 5 rfl).2 (by norm_num)).trans (by rfl)⟩

/-- C7: when the current position is unanswerable, set_speed with a nonzero
rate returns false and attempts no seek and no state transition. -/
theorem set_speed_no_position_false (eng : Engine) (speed : ℚ)
    (hs : speed ≠ 0) (hpos : query_position eng GstFormat.time = none) :
    set_speed eng speed = (false, []) := by
  simp [set_speed, hs, hpos]

/-- Witness for C7 at a concrete engine with no answerable position. -/
theorem set_speed_no_position_false_witness :
    (1 : ℚ) ≠ 0
    ∧ query_position testEngineNoPos GstFormat.time = none
    ∧ set_speed testEngineNoPos 1 = (false, []) :=
  ⟨by norm_num, rfl,
   set_speed_no_position_false testEngineNoPos 1 (by norm_num) rfl⟩

/-- C8: factory construction yields absent exactly when the native factory
call returns the null pointer, yields the wrapper over the returned handle
otherwise, and passes an empty instance name as the null name pointer so the
engine auto-generates one. -/
theorem element_new_absent_iff_factory_null (eng : Engine)
    (factory_name element_name : String) :
    (Element.new eng factory_name element_name).fst =
      (eng.factoryMake factory_name
        (if element_name ≠ "" then some element_name else none)).map
        (fun h => { element := { handle := h } })
    ∧ (Element.new eng factory_name "").fst =
      (eng.factoryMake factory_name none).map
        (fun h => { element := { handle := h } }) := by
  constructor
  · cases hf : eng.factoryMake factory_name
        (if element_name = "" then none else some element_name) <;>
      simp [Element.new, hf, Object.new]
  · cases hf : eng.factoryMake factory_name none <;>
      simp [Element.new, hf, Object.new]

/-- C9: the floating-reference sink step appears exactly once in the trace
of a successful factory construction and never when construction fails. -/
theorem element_new_ref_sink_once (eng : Engine)
    (factory_name element_name : String) :
    (Element.new eng factory_name element_name).snd.count Action.refSink =
      (if (eng.factoryMake factory_name
            (if element_name ≠ "" then some element_name else none)).isSome
       then 1 else 0) := by
  cases hf : eng.factoryMake factory_name
      (if element_name = "" then none else some element_name) <;>
    simp [Element.new, hf]

end Gst
